import Mathlib

/- Shallow embedding of the EV site-evaluation dashboard (ev_site_app.py):
   the site-aggregation pipeline, its derived metrics, the batch runner and
   the CSV export, together with theorems settling the specification claims.

   Modelling conventions:
   * Python floats are modelled as rationals; every concrete value the claims
     evaluate is far from a rounding tie, where the two semantics agree
     (checked against CPython).
   * Each network adapter is a total function from the data the HTTP layer
     produced (passed in as an argument, `none` standing for a failed or
     non-OK call) to the normalized record the Python function returns.
     Fail-soft exception handling in the source therefore becomes totality.
   * Python `None` is modelled by `Option.none`; a Python value that is
     either a string or `None` becomes `Option String`.
   * Python string methods (lower, split, title, join, `in`) are
     re-implemented over `List Char` with the same semantics on the ASCII
     data these claims touch. -/

/-- Python round() on an exact rational: round half to even.  The source
rounds IEEE doubles; at every value evaluated in the claims below the two
agree (checked against CPython). -/
def pyRound (q : ℚ) : Int :=
  let f := ⌊q⌋
  let frac := q - f
  if frac < 1/2 then f
  else if 1/2 < frac then f + 1
  else if f % 2 = 0 then f else f + 1

/-- Python round(x, 2): round to two decimal places. -/
def round2 (q : ℚ) : ℚ := (pyRound (q * 100) : ℚ) / 100

/-- Python str.lower() (ASCII case folding, as in the source's data). -/
def pyLower (s : String) : String := ⟨s.data.map Char.toLower⟩

/-- True when `pat` occurs contiguously in `hay` (helper for Python `in`). -/
def hasSubAux (pat : List Char) : List Char → Bool
  | [] => pat.isEmpty
  | c :: rest => pat.isPrefixOf (c :: rest) || hasSubAux pat rest

/-- Python substring test `pat in hay`. -/
def hasSub (hay pat : String) : Bool := hasSubAux pat.data hay.data

/-- Helper for Python str.split(): accumulate the current word (reversed). -/
def splitWsAux (cur : List Char) : List Char → List String
  | [] => if cur.isEmpty then [] else [String.mk cur.reverse]
  | c :: rest =>
    if c.isWhitespace then
      if cur.isEmpty then splitWsAux [] rest
      else String.mk cur.reverse :: splitWsAux [] rest
    else splitWsAux (c :: cur) rest

/-- Python str.split() with no argument: split on whitespace runs, dropping
empty pieces. -/
def pySplitWs (s : String) : List String := splitWsAux [] s.data

/-- Helper for Python str.title(): the flag records whether the previous
character was alphabetic. -/
def titleAux : Bool → List Char → List Char
  | _, [] => []
  | prevAlpha, c :: rest =>
    if c.isAlpha then (if prevAlpha then c.toLower else c.toUpper) :: titleAux true rest
    else c :: titleAux false rest

/-- Python str.title(). -/
def pyTitle (s : String) : String := ⟨titleAux false s.data⟩

/-- Python s.replace("_", " "). -/
def pyReplaceUnderscores (s : String) : String :=
  ⟨s.data.map (fun c => if c = '_' then ' ' else c)⟩

/-- Python sep.join(xs). -/
def joinSep (sep : String) : List String → String
  | [] => ""
  | [x] => x
  | x :: xs => x ++ sep ++ joinSep sep xs

/-- The local `total_kw` of ev_site_app.calculate_kva:
fast * fast_kw + rapid * rapid_kw + ultra * ultra_kw. -/
def total_kw (fast rapid ultra : Int) (fast_kw rapid_kw ultra_kw : ℚ) : ℚ :=
  (fast : ℚ) * fast_kw + (rapid : ℚ) * rapid_kw + (ultra : ℚ) * ultra_kw

/-- ev_site_app.calculate_kva: `round(total_kw / 0.95, 2)` with the fixed
divisor 0.95. -/
def calculate_kva (fast rapid ultra : Int) (fast_kw rapid_kw ultra_kw : ℚ) : ℚ :=
  round2 (total_kw fast rapid ultra fast_kw rapid_kw ultra_kw / 0.95)

/-- The `brands` dictionary of ev_site_app.extract_brand_name, in insertion
order (Python dicts iterate in insertion order). -/
def brandsList : List (String × String) := [
  ("tesla", "Tesla"), ("supercharger", "Tesla"), ("chargepoint", "ChargePoint"),
  ("ionity", "Ionity"), ("pod point", "Pod Point"), ("podpoint", "Pod Point"),
  ("ecotricity", "Ecotricity"), ("bp pulse", "BP Pulse"), ("bp", "BP Pulse"),
  ("shell", "Shell Recharge"), ("gridserve", "Gridserve"), ("instavolt", "InstaVolt"),
  ("osprey", "Osprey Charging"), ("charge your car", "Charge Your Car"),
  ("rolec", "Rolec"), ("chargemaster", "Chargemaster"), ("polar", "Polar Network"),
  ("source london", "Source London"), ("ev-box", "EVBox"), ("fastned", "Fastned"),
  ("mer", "MER"), ("newmotion", "NewMotion")]

/-- ev_site_app.extract_brand_name: case-insensitive substring match against
the brands dictionary in insertion order, then the one-or-two token fallback.
An empty (falsy) or literal "Unknown" name returns "Unknown" up front. -/
def extract_brand_name (station_name : String) : String :=
  if station_name = "" ∨ station_name = "Unknown" then "Unknown"
  else
    let lower := pyLower station_name
    match brandsList.find? (fun p => hasSub lower p.1) with
    | some p => p.2
    | none =>
      match pySplitWs station_name with
      | w1 :: w2 :: _ => w1 ++ " " ++ w2
      | [w1] => w1
      | [] => "Other"

structure TrafficResult where
  speed : Option ℚ
  freeFlow : Option ℚ
  congestion : String
deriving DecidableEq

/-- ev_site_app.get_tomtom_traffic.  The argument models what the HTTP layer
produced: `none` stands for a missing API key, a non-200 response or a raised
exception; `some (s, f)` stands for a 200 response whose flowSegmentData
carried the optional fields currentSpeed `s` and freeFlowSpeed `f`.
The guard mirrors Python truthiness in `if speed and freeflow and freeflow > 0`:
a present-but-zero speed or free-flow is falsy. -/
def get_tomtom_traffic (resp : Option (Option ℚ × Option ℚ)) : TrafficResult :=
  match resp with
  | some (some s, some f) =>
    if s ≠ 0 ∧ f ≠ 0 ∧ 0 < f then
      let lvl := if s / f > 0.85 then "Low" else if s / f > 0.6 then "Medium" else "High"
      ⟨some s, some f, lvl⟩
    else ⟨none, none, "N/A"⟩
  | _ => ⟨none, none, "N/A"⟩

/-- The fixed category list PLACE_TYPES_FOR_STATS. -/
def PLACE_TYPES_FOR_STATS : List String := ["restaurant", "cafe", "shopping_mall",
  "supermarket", "hospital", "pharmacy", "bank", "atm", "lodging", "gas_station"]

/-- One place returned by the nearby-search endpoint, as read by
get_nearby_amenities: its name and its optional rating (a missing rating is
the Python default "N/A", modelled as `none`). -/
structure Place where
  name : String
  rating : Option ℚ
deriving DecidableEq

/-- The EV-keyword exclusion list inside get_nearby_amenities. -/
def evKeywordsAmenities : List String := ["electric", "ev", "charging", "tesla", "chargepoint"]

/-- The EV filter of get_nearby_amenities:
`any(keyword in name_lower for keyword in ev_keywords)`. -/
def isEvName (name : String) : Bool :=
  evKeywordsAmenities.any (fun k => hasSub (pyLower name) k)

/-- `place_type.replace("_", " ").title()` from get_nearby_amenities. -/
def displayType (t : String) : String := pyTitle (pyReplaceUnderscores t)

/-- One line of the amenity summary: name, display type and, when a rating is
present, the rating (the source uses a star glyph; the rendering of the
rating number abstracts Python float formatting). -/
def amenityEntry (t : String) (p : Place) : String :=
  let base := p.name ++ " (" ++ displayType t ++ ")"
  match p.rating with
  | some r => base ++ " *" ++ toString r
  | none => base

/-- The inner loop of get_nearby_amenities over one category's results:
given the current `shown` counter, returns the displayed entries (at most
3 per category) and the category count.  Places whose name matches an
EV keyword are skipped entirely. -/
def processPlacesAux (t : String) : Nat → List Place → List String × Nat
  | _, [] => ([], 0)
  | shown, p :: ps =>
    if isEvName p.name then processPlacesAux t shown ps
    else if shown < 3 then
      let rest := processPlacesAux t (shown + 1) ps
      (amenityEntry t p :: rest.1, rest.2 + 1)
    else
      let rest := processPlacesAux t shown ps
      (rest.1, rest.2 + 1)

/-- One category of get_nearby_amenities: `none` models a non-200 or
provider-non-OK response (the category contributes nothing). -/
def processResponse (t : String) (resp : Option (List Place)) : List String × Nat :=
  match resp with
  | some ps => processPlacesAux t 0 ps
  | none => ([], 0)

/-- The `total_hits` increments of get_nearby_amenities restricted to one
category's results (skipping EV-named places). -/
def countHitsAux : List Place → Nat
  | [] => 0
  | p :: ps => if isEvName p.name then countHitsAux ps else countHitsAux ps + 1

/-- The `total_hits` contribution of one category. -/
def countResp : Option (List Place) → Nat
  | some ps => countHitsAux ps
  | none => 0

/-- The per-category responses the HTTP layer produced for one
get_nearby_amenities call, keyed by place type. -/
def AmenEnv := String → Option (List Place)

/-- The final value of the `total_hits` accumulator of get_nearby_amenities. -/
def totalHits (env : AmenEnv) : Nat :=
  (PLACE_TYPES_FOR_STATS.map (fun t => countResp (env t))).sum

structure AmenitiesResult where
  summary : String
  counts : List Nat
  proportions : List ℚ
  total_found : Nat
deriving DecidableEq

/-- ev_site_app.get_nearby_amenities.  `Except.error msg` models an exception
raised inside the loop (caught by the outer handler, which embeds the message
in the summary); `Except.ok env` models the per-category responses, `env t =
none` being a failed request for category `t`.  Counts and proportions are
listed in PLACE_TYPES_FOR_STATS order, as the Python dicts iterate. -/
def get_nearby_amenities (input : Except String AmenEnv) : AmenitiesResult :=
  match input with
  | .error msg =>
      ⟨"Error retrieving amenities: " ++ msg,
       PLACE_TYPES_FOR_STATS.map (fun _ => 0),
       PLACE_TYPES_FOR_STATS.map (fun _ => 0),
       0⟩
  | .ok env =>
      let perType := PLACE_TYPES_FOR_STATS.map (fun t => processResponse t (env t))
      let summaryList := (perType.map Prod.fst).flatten
      let counts := perType.map Prod.snd
      let total := totalHits env
      let summary := if summaryList = [] then "None nearby"
                     else joinSep ("; ") (summaryList.take 15)
      let proportions :=
        if 0 < total then counts.map (fun c : Nat => round2 ((c : ℚ) / (total : ℚ) * 100))
        else counts.map (fun _ : Nat => (0 : ℚ))
      ⟨summary, counts, proportions, total⟩

/-- The dictionary get_postcode_info builds: each field is the value of
`res.get(key, "N/A")` on the success path, so `none` models a JSON null and
`some "N/A"` a missing key. -/
structure PostcodeInfo where
  postcode : Option String
  admin_ward : Option String
  admin_district : Option String
  admin_county : Option String
  parish : Option String
  parliamentary_constituency : Option String
  ccg : Option String
  ced : Option String
  nuts : Option String
  lsoa : Option String
  msoa : Option String
  region : Option String
  country : Option String
deriving DecidableEq

/-- The all-"N/A" dictionary get_postcode_info returns on any failure. -/
def defaultPostcodeInfo : PostcodeInfo :=
  ⟨some "N/A", some "N/A", some "N/A", some "N/A", some "N/A", some "N/A", some "N/A",
   some "N/A", some "N/A", some "N/A", some "N/A", some "N/A", some "N/A"⟩

/-- ev_site_app.get_postcode_info: `some r` models a status-200 response with
a nonempty result (the fields of `r` being the extracted values); `none`
models a failed request, a non-200 status, an empty result or an exception,
all of which return the all-"N/A" default. -/
def get_postcode_info (resp : Option PostcodeInfo) : PostcodeInfo :=
  resp.getD defaultPostcodeInfo

/-- The `details` dictionary get_geocode_details builds on success: each
address component is present only when found (`none` models an absent key),
while formatted_address is always set but may be Python None (`none`). -/
structure GeoDetails where
  street : Option String
  street_number : Option String
  neighbourhood : Option String
  city : Option String
  county : Option String
  region : Option String
  country : Option String
  postcode : Option String
  formatted_address : Option String
deriving DecidableEq

/-- `geo.get(key, "N/A")` over the result of get_geocode_details, whose
failure value is the empty dictionary (modelled by `none`). -/
def geoGet (geo : Option GeoDetails) (f : GeoDetails → Option String) : String :=
  match geo with
  | some g => (f g).getD "N/A"
  | none => "N/A"

/-- `geo.get("formatted_address", "N/A")`: on success the key is always
present and holds a possibly-None value. -/
def geoFormattedAddress (geo : Option GeoDetails) : Option String :=
  match geo with
  | some g => g.formatted_address
  | none => some "N/A"

/-- The road_info dictionary of get_road_info_google_roads (its default has
every name "Unknown" and no place id). -/
structure RoadInfo where
  snapped_road_name : String
  snapped_road_type : String
  nearest_road_name : String
  nearest_road_type : String
  place_id : Option String
deriving DecidableEq

/-- The initial (all-failure) road_info dictionary. -/
def defaultRoadInfo : RoadInfo := ⟨"Unknown", "Unknown", "Unknown", "Unknown", none⟩

/-- One competitor station as stored in ev_stations_details; only the name
is consumed by process_site's merge. -/
structure Station where
  name : String
deriving DecidableEq

/-- ev_site_app.get_elevation_data: the argument models the HTTP layer
(`none` = failed request, non-200, non-OK status or no results;
`some none` = a result whose elevation is null; `some (some e)` = elevation
`e`).  Success rounds to two decimals, every failure yields the "N/A"
sentinel (modelled as `none`). -/
def get_elevation_data (resp : Option (Option ℚ)) : Option ℚ :=
  match resp with
  | some (some e) => some (round2 e)
  | _ => none

/-- ev_site_app.convert_to_british_grid: the argument models the pyproj
transformer output (`none` = transform raised).  Success rounds each axis
with Python round(); failure returns (None, None) after a soft warning. -/
def convert_to_british_grid (tres : Option (ℚ × ℚ)) : Option Int × Option Int :=
  match tres with
  | some (e, n) => (some (pyRound e), some (pyRound n))
  | none => (none, none)

/-- Placeholder for the st.secrets Google API key interpolated into URLs. -/
def GOOGLE_API_KEY : String := "GOOGLE_API_KEY"

/-- ev_site_app.google_maps_search_link (coordinate rendering via toString
abstracts Python float interpolation). -/
def google_maps_search_link (lat lon : ℚ) : String :=
  "https://www.google.com/maps/search/?api=1&query=" ++ toString lat ++ "," ++ toString lon

/-- ev_site_app.google_maps_dir_link. -/
def google_maps_dir_link (lat lon : ℚ) : String :=
  "https://www.google.com/maps/dir/?api=1&destination=" ++ toString lat ++ "," ++ toString lon

/-- ev_site_app.get_aerial_view_url (zoom 18, 600x400, satellite, marker;
the marker-label glyph is omitted from the model). -/
def get_aerial_view_url (lat lon : ℚ) : String :=
  "https://maps.googleapis.com/maps/api/staticmap?center=" ++ toString lat ++ "," ++
  toString lon ++ "&zoom=18&size=600x400&maptype=satellite&markers=color:red&key=" ++
  GOOGLE_API_KEY

/-- The always-computed pano link of get_street_view_data. -/
def street_view_pano_link (lat lon : ℚ) : String :=
  "https://www.google.com/maps/@?api=1&map_action=pano&viewpoint=" ++ toString lat ++
  "," ++ toString lon

/-- One directional Street View image URL (fov 90, pitch 0, the defaults the
app calls with). -/
def street_view_image_url (lat lon : ℚ) (heading : Nat) : String :=
  "https://maps.googleapis.com/maps/api/streetview?size=640x400&location=" ++
  toString lat ++ "," ++ toString lon ++ "&fov=90&pitch=0&heading=" ++
  toString heading ++ "&key=" ++ GOOGLE_API_KEY

structure StreetViewData where
  image_urls : List (String × String)
  maps_link : String
  has_street_view : Bool
deriving DecidableEq

/-- ev_site_app.get_street_view_data: `hasSv` models whether the metadata
call reported status OK (false also covers a raised exception). -/
def get_street_view_data (lat lon : ℚ) (hasSv : Bool) : StreetViewData :=
  if hasSv then
    ⟨[("North (0)", street_view_image_url lat lon 0),
      ("East (90)", street_view_image_url lat lon 90),
      ("South (180)", street_view_image_url lat lon 180),
      ("West (270)", street_view_image_url lat lon 270)],
     street_view_pano_link lat lon, true⟩
  else ⟨[], street_view_pano_link lat lon, false⟩

/-- Everything the environment (network, pyproj, secrets) determines during
one process_site call: one slot per adapter, holding exactly the data that
adapter's HTTP layer produced. -/
structure Outcomes where
  grid : Option (ℚ × ℚ)
  elevationResp : Option (Option ℚ)
  geocode : Option GeoDetails
  postcodeResp : Option PostcodeInfo
  traffic : Option (Option ℚ × Option ℚ)
  amenities : Except String AmenEnv
  evStations : List Station
  road : RoadInfo
  hasStreetView : Bool

/-- The SiteRecord: the flat result dictionary of ev_site_app.process_site,
one field per key of the initial `result` literal. -/
structure SiteRecord where
  latitude : ℚ
  longitude : ℚ
  easting : Option Int
  northing : Option Int
  elevation : Option ℚ
  postcode : String
  ward : Option String
  district : Option String
  admin_county : Option String
  parish : Option String
  parliamentary_constituency : Option String
  ccg : Option String
  ced : Option String
  nuts : Option String
  lsoa : Option String
  msoa : Option String
  postcode_region : Option String
  postcode_country : Option String
  street : String
  street_number : String
  neighbourhood : String
  city : String
  county : String
  region : String
  country : String
  formatted_address : Option String
  fast_chargers : Int
  rapid_chargers : Int
  ultra_chargers : Int
  required_kva : ℚ
  traffic_speed : Option ℚ
  traffic_freeflow : Option ℚ
  traffic_congestion : String
  amenities : String
  amenities_summary : String
  amenities_counts : List Nat
  amenities_proportions : List ℚ
  amenities_total : Nat
  snapped_road_name : String
  snapped_road_type : String
  nearest_road_name : String
  nearest_road_type : String
  place_id : Option String
  competitor_ev_count : Nat
  competitor_ev_names : String
  ev_stations_details : List Station
  street_view_image_urls : List (String × String)
  street_view_maps_link : Option String
  has_street_view : Bool
  google_maps_link : Option String
  google_maps_dir_link : Option String
  aerial_view_url : Option String
  competitor_radius : Int
  amenities_radius : Int

/-- The initial all-sentinel `result` dictionary of process_site
(source lines 513-533), field by field. -/
def initRecord (lat lon : ℚ) (fast rapid ultra : Int) (cr ar : Int) : SiteRecord where
  latitude := lat
  longitude := lon
  easting := none
  northing := none
  elevation := none
  postcode := "N/A"
  ward := some "N/A"
  district := some "N/A"
  admin_county := some "N/A"
  parish := some "N/A"
  parliamentary_constituency := some "N/A"
  ccg := some "N/A"
  ced := some "N/A"
  nuts := some "N/A"
  lsoa := some "N/A"
  msoa := some "N/A"
  postcode_region := some "N/A"
  postcode_country := some "N/A"
  street := "N/A"
  street_number := "N/A"
  neighbourhood := "N/A"
  city := "N/A"
  county := "N/A"
  region := "N/A"
  country := "N/A"
  formatted_address := some "N/A"
  fast_chargers := fast
  rapid_chargers := rapid
  ultra_chargers := ultra
  required_kva := 0
  traffic_speed := none
  traffic_freeflow := none
  traffic_congestion := "N/A"
  amenities := "N/A"
  amenities_summary := "N/A"
  amenities_counts := PLACE_TYPES_FOR_STATS.map (fun _ => 0)
  amenities_proportions := PLACE_TYPES_FOR_STATS.map (fun _ => 0)
  amenities_total := 0
  snapped_road_name := "Unknown"
  snapped_road_type := "Unknown"
  nearest_road_name := "Unknown"
  nearest_road_type := "Unknown"
  place_id := none
  competitor_ev_count := 0
  competitor_ev_names := "None"
  ev_stations_details := []
  street_view_image_urls := []
  street_view_maps_link := none
  has_street_view := false
  google_maps_link := none
  google_maps_dir_link := none
  aerial_view_url := none
  competitor_radius := cr
  amenities_radius := ar

/-- ev_site_app.process_site: initialize the all-sentinel record, then apply
each adapter's merge in source order.  The Python body wraps the merges in
one try/except and each adapter is itself fail-soft, so the function is
total; `o` carries what the environment produced for each adapter.  Google's
geocoded postcode is cached in `google_postcode` and re-applied after the
postcodes.io merge, exactly as in the source. -/
def process_site (lat lon : ℚ) (fast rapid ultra : Int)
    (fast_kw rapid_kw ultra_kw : ℚ) (competitor_radius amenities_radius : Int)
    (o : Outcomes) : SiteRecord :=
  let result := initRecord lat lon fast rapid ultra competitor_radius amenities_radius
  let en := convert_to_british_grid o.grid
  let result := { result with easting := en.1, northing := en.2 }
  let result := { result with
    required_kva := calculate_kva fast rapid ultra fast_kw rapid_kw ultra_kw }
  let result := { result with elevation := get_elevation_data o.elevationResp }
  let result := { result with aerial_view_url := some (get_aerial_view_url lat lon) }
  let result := { result with
    street := geoGet o.geocode (fun g => g.street),
    street_number := geoGet o.geocode (fun g => g.street_number),
    neighbourhood := geoGet o.geocode (fun g => g.neighbourhood),
    city := geoGet o.geocode (fun g => g.city),
    county := geoGet o.geocode (fun g => g.county),
    region := geoGet o.geocode (fun g => g.region),
    country := geoGet o.geocode (fun g => g.country),
    formatted_address := geoFormattedAddress o.geocode,
    postcode := geoGet o.geocode (fun g => g.postcode) }
  let google_postcode := geoGet o.geocode (fun g => g.postcode)
  let postcode_data := get_postcode_info o.postcodeResp
  let result := { result with
    ward := postcode_data.admin_ward,
    district := postcode_data.admin_district,
    admin_county := postcode_data.admin_county,
    parish := postcode_data.parish,
    parliamentary_constituency := postcode_data.parliamentary_constituency,
    ccg := postcode_data.ccg,
    ced := postcode_data.ced,
    nuts := postcode_data.nuts,
    lsoa := postcode_data.lsoa,
    msoa := postcode_data.msoa,
    postcode_region := postcode_data.region,
    postcode_country := postcode_data.country }
  let result := { result with postcode := google_postcode }
  let traffic := get_tomtom_traffic o.traffic
  let result := { result with
    traffic_speed := traffic.speed,
    traffic_freeflow := traffic.freeFlow,
    traffic_congestion := traffic.congestion }
  let amenities_data := get_nearby_amenities o.amenities
  let result := { result with
    amenities := amenities_data.summary,
    amenities_summary := amenities_data.summary,
    amenities_counts := amenities_data.counts,
    amenities_proportions := amenities_data.proportions,
    amenities_total := amenities_data.total_found }
  let ev_stations := o.evStations
  let result := { result with
    competitor_ev_count := ev_stations.length,
    competitor_ev_names :=
      if ev_stations.isEmpty then "None"
      else joinSep ("; ") (ev_stations.map Station.name),
    ev_stations_details := ev_stations }
  let road_info := o.road
  let result := { result with
    snapped_road_name := road_info.snapped_road_name,
    snapped_road_type := road_info.snapped_road_type,
    nearest_road_name := road_info.nearest_road_name,
    nearest_road_type := road_info.nearest_road_type,
    place_id := road_info.place_id }
  let sv := get_street_view_data lat lon o.hasStreetView
  let result := { result with
    street_view_image_urls := sv.image_urls,
    street_view_maps_link := some sv.maps_link,
    has_street_view := sv.has_street_view,
    google_maps_link := some (google_maps_search_link lat lon),
    google_maps_dir_link := some (google_maps_dir_link lat lon) }
  result

/-- The environment's adapter data keyed by query coordinate (the cached
adapters are memoized by coordinate, so one coordinate sees one set of
responses). -/
def Env := ℚ → ℚ → Outcomes

/-- Outcome of the single-site "Analyse Site" handler (source lines 778-791):
a ValueError from float() is reported as a format error, an out-of-range
coordinate as a range error, and otherwise process_site runs. -/
inductive SingleResult where
  | formatError
  | rangeError
  | ok (site : SiteRecord)

/-- The single-site analyse handler: `latRaw`/`lonRaw` model what Python
float() produced for the text inputs (`none` = ValueError).  The range check
`not (-90 <= lat <= 90) or not (-180 <= lon <= 180)` runs before
process_site, so a rejected query touches no adapter. -/
def analyse_single (env : Env) (latRaw lonRaw : Option ℚ)
    (fast rapid ultra : Int) (fast_kw rapid_kw ultra_kw : ℚ)
    (competitor_radius amenities_radius : Int) : SingleResult :=
  match latRaw, lonRaw with
  | some la, some lo =>
    if ¬(-90 ≤ la ∧ la ≤ 90) ∨ ¬(-180 ≤ lo ∧ lo ≤ 180) then SingleResult.rangeError
    else SingleResult.ok (process_site la lo fast rapid ultra fast_kw rapid_kw ultra_kw
      competitor_radius amenities_radius (env la lo))
  | _, _ => SingleResult.formatError

/-- One uploaded batch row after the float()/int() conversions the loop
performs: `none` models a conversion that raised (a malformed cell). -/
structure Row where
  latitude : Option ℚ
  longitude : Option ℚ
  fast_chargers : Option Int
  rapid_chargers : Option Int
  ultra_chargers : Option Int

/-- The five conversions at the head of the batch loop body; any failure
raises, reaching the per-row except handler. -/
def parseRow (r : Row) : Option (ℚ × ℚ × Int × Int × Int) :=
  match r.latitude, r.longitude, r.fast_chargers, r.rapid_chargers, r.ultra_chargers with
  | some la, some lo, some f, some rp, some u => some (la, lo, f, rp, u)
  | _, _, _, _, _ => none

/-- The batch loop (source lines 1057-1067): each well-formed row appends
process_site's record; a malformed row only emits a warning and appends
nothing; there is no coordinate-range check on this path. -/
def run_batch (env : Env) (fast_kw rapid_kw ultra_kw : ℚ)
    (competitor_radius amenities_radius : Int) : List Row → List SiteRecord
  | [] => []
  | r :: rs =>
    match parseRow r with
    | some (la, lo, f, rp, u) =>
      process_site la lo f rp u fast_kw rapid_kw ultra_kw
        competitor_radius amenities_radius (env la lo) ::
        run_batch env fast_kw rapid_kw ultra_kw competitor_radius amenities_radius rs
    | none => run_batch env fast_kw rapid_kw ultra_kw competitor_radius amenities_radius rs

/-- One CSV cell as pandas receives it from the export dictionaries: a
string, an integer, a float (rational), or Python None/NaN. -/
inductive Cell where
  | str (s : String)
  | int (n : Int)
  | rat (q : ℚ)
  | blank
deriving DecidableEq

/-- How pandas to_csv renders one cell: None/NaN becomes the empty field,
strings are written verbatim, numbers via their repr (toString abstracts
Python float formatting; the claims only distinguish empty, "N/A" and
numeric text). -/
def csvCell : Cell → String
  | .str s => s
  | .int n => toString n
  | .rat q => toString q
  | .blank => ""

/-- `Option String` export values: a present string is written as itself,
Python None as an empty cell. -/
def optStrCell : Option String → Cell
  | some s => .str s
  | none => .blank

/-- The export mapping built by both the single-site `export_data` dictionary
(source lines 980-1020) and the batch `export_rows` entries (source lines
1135-1175), which list the same 39 columns reading the same record keys.
Every `site.get(key, default)` finds its key present (the record is
initialized with every key), so the value itself is exported: None-valued
fields become blank cells. -/
def export_row (site : SiteRecord) : List (String × Cell) := [
  ("Latitude", .rat site.latitude),
  ("Longitude", .rat site.longitude),
  ("Easting", match site.easting with | some n => .int n | none => .blank),
  ("Northing", match site.northing with | some n => .int n | none => .blank),
  ("Elevation (m)", match site.elevation with | some e => .rat e | none => .str "N/A"),
  ("Postcode", .str site.postcode),
  ("Address", optStrCell site.formatted_address),
  ("Street", .str site.street),
  ("Street Number", .str site.street_number),
  ("City", .str site.city),
  ("County", .str site.county),
  ("Region", .str site.region),
  ("Country", .str site.country),
  ("Ward", optStrCell site.ward),
  ("District", optStrCell site.district),
  ("Admin County", optStrCell site.admin_county),
  ("Parish", optStrCell site.parish),
  ("Parliamentary Constituency", optStrCell site.parliamentary_constituency),
  ("CCG", optStrCell site.ccg),
  ("CED", optStrCell site.ced),
  ("NUTS", optStrCell site.nuts),
  ("LSOA", optStrCell site.lsoa),
  ("MSOA", optStrCell site.msoa),
  ("Postcode Region", optStrCell site.postcode_region),
  ("Postcode Country", optStrCell site.postcode_country),
  ("Fast Chargers", .int site.fast_chargers),
  ("Rapid Chargers", .int site.rapid_chargers),
  ("Ultra Chargers", .int site.ultra_chargers),
  ("Required kVA", .rat site.required_kva),
  ("Road Name", .str site.snapped_road_name),
  ("Road Type", .str site.snapped_road_type),
  ("Traffic Congestion", .str site.traffic_congestion),
  ("Competitor EV Count", .int site.competitor_ev_count),
  ("Competitor Names", .str site.competitor_ev_names),
  ("Amenities Total", .int site.amenities_total),
  ("Amenities Summary", .str site.amenities_summary),
  ("Google Maps Link", optStrCell site.google_maps_link),
  ("Street View Link", optStrCell site.street_view_maps_link),
  ("Aerial View Link", optStrCell site.aerial_view_url)]

/-- Concrete successful geocoder data used by closed counterexamples and
witnesses. -/
def sampleGeo : GeoDetails :=
  ⟨some "Baker Street", some "221", some "Marylebone", some "London",
   some "Greater London", some "England", some "United Kingdom",
   some "NW1 6XE", some "221B Baker Street, London"⟩

/-- Concrete successful postcodes.io data (admin_county null, as is common). -/
def samplePostcodeInfo : PostcodeInfo :=
  ⟨some "NW1 6XE", some "Regents Park", some "Westminster", none, some "N/A",
   some "Cities of London and Westminster", some "NHS Central London", some "N/A",
   some "UKI31", some "Westminster 011", some "Westminster 012", some "London",
   some "England"⟩

/-- A concrete all-around environment outcome for one coordinate. -/
def sampleOutcomes : Outcomes :=
  ⟨some (530034.5, 182055.25), some (some 35.255), some sampleGeo,
   some samplePostcodeInfo, some (some 45, some 50), Except.ok (fun _ => none),
   [⟨"Tesla Supercharger - Kings Cross"⟩],
   ⟨"Baker Street", "Local Road", "Baker Street", "Local Road", some "pid123"⟩, true⟩

/-- The environment answering every coordinate with sampleOutcomes. -/
def sampleEnv : Env := fun _ _ => sampleOutcomes

/-- The nine geocoder-owned record values process_site derives from one
get_geocode_details result. -/
def geocodeMerge (geo : Option GeoDetails) :
    String × String × String × String × String × String × String × Option String × String :=
  (geoGet geo (fun g => g.street), geoGet geo (fun g => g.street_number),
   geoGet geo (fun g => g.neighbourhood), geoGet geo (fun g => g.city),
   geoGet geo (fun g => g.county), geoGet geo (fun g => g.region),
   geoGet geo (fun g => g.country), geoFormattedAddress geo,
   geoGet geo (fun g => g.postcode))

/-- The twelve administrative record values process_site copies from one
get_postcode_info result. -/
def adminMerge (resp : Option PostcodeInfo) :
    Option String × Option String × Option String × Option String × Option String ×
    Option String × Option String × Option String × Option String × Option String ×
    Option String × Option String :=
  let pd := get_postcode_info resp
  (pd.admin_ward, pd.admin_district, pd.admin_county, pd.parish,
   pd.parliamentary_constituency, pd.ccg, pd.ced, pd.nuts, pd.lsoa, pd.msoa,
   pd.region, pd.country)

/-- The adapters of the aggregation pipeline (spec section 4.2's six data
adapters plus the coordinate projector and the elevation lookup; the
street-view probe and the locally computed links are presentation
enrichments, not data adapters). -/
inductive Adapter where
  | gridProjector
  | elevationApi
  | geocoder
  | adminLookup
  | trafficFlow
  | amenitiesSearch
  | stationSearch
  | roadSnap

/-- Replace one adapter's outcome by its failure outcome (for the amenities
search, the canonical failure is every category request failing, which
produces the adapter's all-unknown default record; the station search
returns the empty list, the road snap its all-"Unknown" dictionary). -/
def failAt : Adapter → Outcomes → Outcomes
  | .gridProjector, o => { o with grid := none }
  | .elevationApi, o => { o with elevationResp := none }
  | .geocoder, o => { o with geocode := none }
  | .adminLookup, o => { o with postcodeResp := none }
  | .trafficFlow, o => { o with traffic := none }
  | .amenitiesSearch, o => { o with amenities := Except.ok (fun _ => none) }
  | .stationSearch, o => { o with evStations := [] }
  | .roadSnap, o => { o with road := defaultRoadInfo }

/-- Overwrite exactly one adapter's record fields with the sentinel values
its failure produces, leaving every other field untouched. -/
def applyFailDefaults : Adapter → SiteRecord → SiteRecord
  | .gridProjector, r => { r with easting := none, northing := none }
  | .elevationApi, r => { r with elevation := none }
  | .geocoder, r => { r with
      street := "N/A", street_number := "N/A",
      neighbourhood := "N/A", city := "N/A", county := "N/A", region := "N/A",
      country := "N/A", formatted_address := some "N/A", postcode := "N/A" }
  | .adminLookup, r => { r with
      ward := some "N/A", district := some "N/A",
      admin_county := some "N/A", parish := some "N/A",
      parliamentary_constituency := some "N/A", ccg := some "N/A", ced := some "N/A",
      nuts := some "N/A", lsoa := some "N/A", msoa := some "N/A",
      postcode_region := some "N/A", postcode_country := some "N/A" }
  | .trafficFlow, r => { r with
      traffic_speed := none, traffic_freeflow := none,
      traffic_congestion := "N/A" }
  | .amenitiesSearch, r => { r with
      amenities := "None nearby",
      amenities_summary := "None nearby",
      amenities_counts := PLACE_TYPES_FOR_STATS.map (fun _ => 0),
      amenities_proportions := PLACE_TYPES_FOR_STATS.map (fun _ => (0 : ℚ)),
      amenities_total := 0 }
  | .stationSearch, r => { r with
      competitor_ev_count := 0, competitor_ev_names := "None",
      ev_stations_details := [] }
  | .roadSnap, r => { r with
      snapped_road_name := "Unknown", snapped_road_type := "Unknown",
      nearest_road_name := "Unknown", nearest_road_type := "Unknown", place_id := none }

/-- The outcome in which every adapter failed. -/
def allFailOutcomes : Outcomes :=
  ⟨none, none, none, none, none, Except.ok (fun _ => none), [], defaultRoadInfo, false⟩

theorem pyRound_nonneg {q : ℚ} (h : 0 ≤ q) : 0 ≤ pyRound q := by
  have hf : (0:ℤ) ≤ ⌊q⌋ := Int.floor_nonneg.mpr h
  have hdef : pyRound q =
      if (q - ⌊q⌋) < 1/2 then ⌊q⌋
      else if 1/2 < (q - ⌊q⌋) then ⌊q⌋ + 1
      else if ⌊q⌋ % 2 = 0 then ⌊q⌋ else ⌊q⌋ + 1 := rfl
  rw [hdef]
  split_ifs <;> omega

theorem round2_nonneg {q : ℚ} (h : 0 ≤ q) : 0 ≤ round2 q := by
  unfold round2
  apply div_nonneg _ (by norm_num)
  exact_mod_cast pyRound_nonneg (mul_nonneg h (by norm_num))

/-- C4: in process_site, the final postcode always equals the value derived
from the primary geocoder (its sentinel "N/A" when the geocoder failed or
returned no postal_code component), for every pair of adapter results: the
later postcodes.io merge never overwrites it, because the cached
google_postcode is re-applied after the administrative merge. -/
theorem process_site_postcode_primary (lat lon : ℚ) (fast rapid ultra : Int)
    (fast_kw rapid_kw ultra_kw : ℚ) (cr ar : Int) (o : Outcomes) :
    (process_site lat lon fast rapid ultra fast_kw rapid_kw ultra_kw cr ar o).postcode
      = geoGet o.geocode (fun g => g.postcode) := rfl

/-- C5 (counterexample): required_kva does not scale linearly with the charger
counts, because the result is rounded to two decimals.  With non-negative
counts and the positive rating 1 kW per class, one fast charger yields 1.05
but two fast chargers yield 2.11, not 2 * 1.05 = 2.10. -/
theorem calculate_kva_linearity_counterexample :
    calculate_kva 2 0 0 1 1 1 = 2.11
    ∧ calculate_kva 1 0 0 1 1 1 = 1.05
    ∧ calculate_kva 2 0 0 1 1 1 ≠ 2 * calculate_kva 1 0 0 1 1 1 := by
  have h2 : calculate_kva 2 0 0 1 1 1 = 2.11 := by
    norm_num [calculate_kva, total_kw, round2, pyRound]
  have h1 : calculate_kva 1 0 0 1 1 1 = 1.05 := by
    norm_num [calculate_kva, total_kw, round2, pyRound]
  refine ⟨h2, h1, ?_⟩
  rw [h2, h1]
  norm_num

/-- C5 (amended): required_kva is round(total_kw / 0.95, 2) with the fixed
divisor 0.95; the pre-rounding total kW scales linearly with the counts for
fixed ratings (the rounded result is linear only up to the rounding step);
the result is non-negative for non-negative counts and positive ratings; and
fast=2, rapid=2, ultra=1 at 22/60/150 kW yields 330.53. -/
theorem calculate_kva_spec (fast rapid ultra : Int) (fast_kw rapid_kw ultra_kw : ℚ) :
    calculate_kva fast rapid ultra fast_kw rapid_kw ultra_kw
      = round2 (total_kw fast rapid ultra fast_kw rapid_kw ultra_kw / 0.95)
    ∧ (∀ k : Int, total_kw (k * fast) (k * rapid) (k * ultra) fast_kw rapid_kw ultra_kw
        = (k : ℚ) * total_kw fast rapid ultra fast_kw rapid_kw ultra_kw)
    ∧ (0 ≤ fast → 0 ≤ rapid → 0 ≤ ultra → 0 < fast_kw → 0 < rapid_kw → 0 < ultra_kw →
        0 ≤ calculate_kva fast rapid ultra fast_kw rapid_kw ultra_kw)
    ∧ calculate_kva 2 2 1 22 60 150 = 330.53 := by
  refine ⟨rfl, ?_, ?_, ?_⟩
  · intro k
    unfold total_kw
    push_cast
    ring
  · intro h1 h2 h3 h4 h5 h6
    apply round2_nonneg
    apply div_nonneg _ (by norm_num)
    have c1 : (0:ℚ) ≤ (fast : ℚ) := by exact_mod_cast h1
    have c2 : (0:ℚ) ≤ (rapid : ℚ) := by exact_mod_cast h2
    have c3 : (0:ℚ) ≤ (ultra : ℚ) := by exact_mod_cast h3
    unfold total_kw
    have := mul_nonneg c1 h4.le
    have := mul_nonneg c2 h5.le
    have := mul_nonneg c3 h6.le
    linarith
  · norm_num [calculate_kva, total_kw, round2, pyRound]

/-- C5 (witness): the amended theorem applied at one fast, one rapid and one
ultra charger rated 22/60/150 kW, and at the claim's worked example. -/
theorem calculate_kva_spec_witness :
    0 ≤ calculate_kva 1 1 1 22 60 150 ∧ calculate_kva 2 2 1 22 60 150 = 330.53 :=
  ⟨(calculate_kva_spec 1 1 1 22 60 150).2.2.1 (by decide) (by decide) (by decide)
      (by norm_num) (by norm_num) (by norm_num),
   (calculate_kva_spec 2 2 1 22 60 150).2.2.2⟩

/-- C6 (counterexample): a present current speed of 0 with free-flow 50 has
ratio 0, which the claim buckets as "High", but the code's truthiness guard
treats the zero speed as missing and returns the "N/A" sentinel. -/
theorem congestion_zero_speed_counterexample :
    (get_tomtom_traffic (some (some 0, some 50))).congestion = "N/A"
    ∧ (get_tomtom_traffic (some (some 0, some 50))).congestion ≠ "High" := by
  have h : (get_tomtom_traffic (some (some 0, some 50))).congestion = "N/A" := by
    norm_num [get_tomtom_traffic]
  exact ⟨h, by rw [h]; decide⟩

/-- C6 (amended): with both speeds present, a nonzero current speed and a
strictly positive free-flow speed, the congestion level is Low when the ratio
exceeds 0.85, Medium when it exceeds 0.60, and High otherwise; when either
speed is missing, the current speed is zero, or the free-flow speed is zero
or negative, the result is the "N/A" sentinel.  Ratio 0.9 gives Low, 0.7
Medium, 0.3 High. -/
theorem get_tomtom_traffic_congestion_spec (s f : ℚ) :
    (s ≠ 0 → 0 < f →
      (get_tomtom_traffic (some (some s, some f))).congestion =
        (if s / f > 0.85 then "Low" else if s / f > 0.6 then "Medium" else "High"))
    ∧ (get_tomtom_traffic (some (some 0, some f))).congestion = "N/A"
    ∧ (f ≤ 0 → (get_tomtom_traffic (some (some s, some f))).congestion = "N/A")
    ∧ (get_tomtom_traffic (some (none, some f))).congestion = "N/A"
    ∧ (get_tomtom_traffic (some (some s, none))).congestion = "N/A"
    ∧ (get_tomtom_traffic none).congestion = "N/A"
    ∧ (get_tomtom_traffic (some (some 0.9, some 1))).congestion = "Low"
    ∧ (get_tomtom_traffic (some (some 0.7, some 1))).congestion = "Medium"
    ∧ (get_tomtom_traffic (some (some 0.3, some 1))).congestion = "High" := by
  refine ⟨?_, ?_, ?_, rfl, rfl, rfl, ?_, ?_, ?_⟩
  · intro hs hf
    simp only [get_tomtom_traffic, if_pos (show s ≠ 0 ∧ f ≠ 0 ∧ 0 < f from ⟨hs, hf.ne', hf⟩)]
  · simp [get_tomtom_traffic]
  · intro hf
    have hcond : ¬(s ≠ 0 ∧ f ≠ 0 ∧ 0 < f) := by
      rintro ⟨-, -, h3⟩
      exact absurd h3 (not_lt.mpr hf)
    simp only [get_tomtom_traffic, if_neg hcond]
  · norm_num [get_tomtom_traffic]
  · norm_num [get_tomtom_traffic]
  · norm_num [get_tomtom_traffic]

/-- C6 (witness): the amended theorem applied at speed 9 / free-flow 10 and
at speed 5 with negative free-flow -10. -/
theorem get_tomtom_traffic_congestion_spec_witness :
    (get_tomtom_traffic (some (some 9, some 10))).congestion =
      (if (9:ℚ) / 10 > 0.85 then "Low" else if (9:ℚ) / 10 > 0.6 then "Medium" else "High")
    ∧ (get_tomtom_traffic (some (some 5, some (-10)))).congestion = "N/A" :=
  ⟨(get_tomtom_traffic_congestion_spec 9 10).1 (by norm_num) (by norm_num),
   (get_tomtom_traffic_congestion_spec 5 (-10)).2.2.1 (by norm_num)⟩

/-- C7 (counterexample): an empty station name is falsy, so
extract_brand_name returns "Unknown" for it, not the claimed "Other". -/
theorem extract_brand_name_empty_counterexample :
    extract_brand_name ("") = "Unknown" ∧ extract_brand_name ("") ≠ "Other" :=
  ⟨by decide, by decide⟩

/-- C7 (amended): brand extraction matches case-insensitively against the
brand dictionary in insertion order ("bp pulse" is listed and therefore
checked before "bp"); when no key matches, a non-empty name falls back to its
first two whitespace tokens, a single token stands alone, and a name with no
tokens at all (whitespace only) gives "Other" — but an empty or "Unknown"
name returns "Unknown" up front, not "Other". -/
theorem extract_brand_name_spec (name : String) :
    (name ≠ "" → name ≠ "Unknown" →
      brandsList.all (fun p => ! hasSub (pyLower name) p.1) = true →
      extract_brand_name name =
        match pySplitWs name with
        | w1 :: w2 :: _ => w1 ++ " " ++ w2
        | [w1] => w1
        | [] => "Other")
    ∧ extract_brand_name ("BP Pulse Rapid 01") = "BP Pulse"
    ∧ extract_brand_name ("Tesla Supercharger - Kings Cross") = "Tesla"
    ∧ extract_brand_name ("Xyzcharge") = "Xyzcharge"
    ∧ extract_brand_name ("") = "Unknown"
    ∧ extract_brand_name ("Unknown") = "Unknown"
    ∧ extract_brand_name ("   ") = "Other"
    ∧ (brandsList.map Prod.fst).indexOf ("bp pulse") < (brandsList.map Prod.fst).indexOf ("bp") := by
  refine ⟨?_, by decide, by decide, by decide, by decide, by decide, by decide, by decide⟩
  intro h1 h2 hall
  unfold extract_brand_name
  rw [if_neg (by simp [h1, h2])]
  have hnone : brandsList.find? (fun p => hasSub (pyLower name) p.1) = none := by
    apply List.find?_eq_none.mpr
    intro p hp
    have := List.all_eq_true.mp hall p hp
    simpa using this
  simp only [hnone]

/-- C7 (witness): the amended theorem's fallback clause applied at the
unrecognized single-token name "Xyzcharge". -/
theorem extract_brand_name_spec_witness :
    extract_brand_name ("Xyzcharge") =
      (match pySplitWs ("Xyzcharge") with
       | w1 :: w2 :: _ => w1 ++ " " ++ w2
       | [w1] => w1
       | [] => "Other") :=
  (extract_brand_name_spec ("Xyzcharge")).1 (by decide) (by decide) (by decide)

/-- Helper: the batch runner equals a filterMap over the rows (malformed rows
are dropped, well-formed rows are aggregated in order). -/
theorem run_batch_eq_filterMap (env : Env) (fast_kw rapid_kw ultra_kw : ℚ)
    (cr ar : Int) (rows : List Row) :
    run_batch env fast_kw rapid_kw ultra_kw cr ar rows
      = rows.filterMap (fun r => (parseRow r).map (fun v =>
          process_site v.1 v.2.1 v.2.2.1 v.2.2.2.1 v.2.2.2.2 fast_kw rapid_kw ultra_kw
            cr ar (env v.1 v.2.1))) := by
  induction rows with
  | nil => rfl
  | cons r rs ih =>
    simp only [run_batch, List.filterMap_cons]
    cases hp : parseRow r with
    | none => simpa [hp] using ih
    | some v =>
      obtain ⟨la, lo, f, rp, u⟩ := v
      simpa [hp] using ih

/-- C1 (counterexample): a batch of two rows whose second row has a
non-numeric latitude yields a result list of length 1, not the claimed 2:
the malformed row produces no entry at all (there is no FailureMarker in the
code), so the claimed N-entry sequence with a marker at position k is false
at this input. -/
theorem run_batch_malformed_counterexample :
    (run_batch sampleEnv 22 60 150 1000 500
      [⟨some 51.5074, some (-0.1278), some 2, some 2, some 1⟩,
       ⟨none, some (-0.0922), some 4, some 1, some 0⟩]).length = 1
    ∧ (1 : Nat) ≠ 2 := ⟨rfl, by decide⟩

/-- C1 (amended): the batch runner produces one SiteRecord per well-formed
row, preserving input order; a malformed row (any of the five conversions
raising) is skipped entirely — only a warning is shown, no FailureMarker or
placeholder is appended — so N rows with one malformed row yield N-1
results, and the remaining rows are still processed independently. -/
theorem run_batch_spec (env : Env) (fast_kw rapid_kw ultra_kw : ℚ)
    (cr ar : Int) (rows : List Row) :
    run_batch env fast_kw rapid_kw ultra_kw cr ar rows
      = rows.filterMap (fun r => (parseRow r).map (fun v =>
          process_site v.1 v.2.1 v.2.2.1 v.2.2.2.1 v.2.2.2.2 fast_kw rapid_kw ultra_kw
            cr ar (env v.1 v.2.1)))
    ∧ (run_batch env fast_kw rapid_kw ultra_kw cr ar rows).length
        = (rows.filter (fun r => (parseRow r).isSome)).length := by
  refine ⟨run_batch_eq_filterMap env fast_kw rapid_kw ultra_kw cr ar rows, ?_⟩
  rw [run_batch_eq_filterMap]
  induction rows with
  | nil => rfl
  | cons r rs ih =>
    cases hp : parseRow r <;>
      simp [List.filterMap_cons, List.filter_cons, hp, ih]

/-- C2 (counterexample): the batch path performs no coordinate-range check:
a row with latitude 95 (outside [-90, 90]) is not rejected — process_site
runs and its record is built from the adapters' data (here the sample
geocoder's postcode), contradicting the claim that every entry path rejects
such input before any adapter is invoked. -/
theorem coordinate_validation_counterexample :
    (run_batch sampleEnv 22 60 150 1000 500
        [⟨some 95, some 0, some 1, some 1, some 1⟩]).length = 1
    ∧ (run_batch sampleEnv 22 60 150 1000 500
        [⟨some 95, some 0, some 1, some 1, some 1⟩]).head?.map
          (fun site => site.postcode) = some "NW1 6XE" := ⟨rfl, rfl⟩

/-- C2 (amended): on the single-site path, a latitude outside [-90, 90] or a
longitude outside [-180, 180] is rejected with a user-facing error before
process_site (and hence any adapter) is invoked; the batch path, however,
performs no range validation — every row whose five cells convert is passed
to process_site unconditionally, so out-of-range batch rows do reach the
adapters. -/
theorem coordinate_validation_spec (env : Env) (fast rapid ultra : Int)
    (fast_kw rapid_kw ultra_kw : ℚ) (cr ar : Int) :
    (∀ la lo : ℚ, (¬(-90 ≤ la ∧ la ≤ 90) ∨ ¬(-180 ≤ lo ∧ lo ≤ 180)) →
      analyse_single env (some la) (some lo) fast rapid ultra fast_kw rapid_kw ultra_kw
        cr ar = SingleResult.rangeError)
    ∧ (∀ la lo : ℚ, ∀ f rp u : Int,
        run_batch env fast_kw rapid_kw ultra_kw cr ar
            [⟨some la, some lo, some f, some rp, some u⟩]
          = [process_site la lo f rp u fast_kw rapid_kw ultra_kw cr ar (env la lo)]) := by
  constructor
  · intro la lo h
    simp only [analyse_single, if_pos h]
  · intro la lo f rp u
    rfl

/-- C2 (witness): the amended theorem applied at lat 95 / lon 0 on the
single-site path and at the same out-of-range coordinate on the batch path. -/
theorem coordinate_validation_spec_witness :
    analyse_single sampleEnv (some 95) (some 0) 2 2 1 22 60 150 1000 500
      = SingleResult.rangeError
    ∧ run_batch sampleEnv 22 60 150 1000 500
        [⟨some 95, some 0, some 1, some 1, some 1⟩]
      = [process_site 95 0 1 1 1 22 60 150 1000 500 (sampleEnv 95 0)] :=
  ⟨(coordinate_validation_spec sampleEnv 2 2 1 22 60 150 1000 500).1 95 0
      (Or.inl (by norm_num)),
   (coordinate_validation_spec sampleEnv 1 1 1 22 60 150 1000 500).2 95 0 1 1 1⟩

theorem processPlacesAux_snd (t : String) (ps : List Place) :
    ∀ shown, (processPlacesAux t shown ps).2 = countHitsAux ps := by
  induction ps with
  | nil => intro _; rfl
  | cons p ps ih =>
    intro shown
    cases hev : isEvName p.name with
    | true => simp [processPlacesAux, countHitsAux, hev, ih]
    | false =>
      by_cases hs : shown < 3 <;> simp [processPlacesAux, countHitsAux, hev, hs, ih]

theorem processResponse_snd (t : String) (r : Option (List Place)) :
    (processResponse t r).2 = countResp r := by
  cases r with
  | none => rfl
  | some ps => exact processPlacesAux_snd t ps 0

theorem processPlacesAux_filter_ev (t : String) (ps : List Place) :
    ∀ shown, processPlacesAux t shown (ps.filter (fun p => ! isEvName p.name))
      = processPlacesAux t shown ps := by
  induction ps with
  | nil => intro _; rfl
  | cons p ps ih =>
    intro shown
    cases hev : isEvName p.name with
    | true => simp [List.filter_cons, hev, processPlacesAux, ih]
    | false =>
      by_cases hs : shown < 3 <;>
        simp [List.filter_cons, hev, hs, processPlacesAux, ih]

theorem countHitsAux_filter_ev (ps : List Place) :
    countHitsAux (ps.filter (fun p => ! isEvName p.name)) = countHitsAux ps := by
  induction ps with
  | nil => rfl
  | cons p ps ih =>
    cases hev : isEvName p.name <;>
      simp [List.filter_cons, hev, countHitsAux, ih]

/-- C10: on both the success and the failure path of get_nearby_amenities,
total_found equals the sum of the per-category counts; each proportion is
round(count / total_found * 100, 2) when total_found > 0 and 0.0 otherwise;
and places whose name contains an EV-charging keyword contribute to neither
the counts, the total, nor the displayed summary list — removing them from
every category's response leaves the whole result unchanged. -/
theorem get_nearby_amenities_invariants (input : Except String AmenEnv) :
    (get_nearby_amenities input).total_found = (get_nearby_amenities input).counts.sum
    ∧ (get_nearby_amenities input).proportions
        = (get_nearby_amenities input).counts.map (fun c : Nat =>
            if 0 < (get_nearby_amenities input).total_found
            then round2 ((c : ℚ) / ((get_nearby_amenities input).total_found : ℚ) * 100)
            else 0)
    ∧ (∀ env : AmenEnv,
        get_nearby_amenities (Except.ok (fun t => (env t).map
            (fun ps => ps.filter (fun p => ! isEvName p.name))))
          = get_nearby_amenities (Except.ok env)) := by
  refine ⟨?_, ?_, ?_⟩
  · cases input with
    | error msg => rfl
    | ok env =>
      have h2 : (fun t => countResp (env t)) = (fun t => (processResponse t (env t)).2) :=
        funext fun t => (processResponse_snd t (env t)).symm
      simp only [get_nearby_amenities, totalHits, List.map_map]
      rw [h2]
      rfl
  · cases input with
    | error msg => simp [get_nearby_amenities]
    | ok env =>
      simp only [get_nearby_amenities]
      by_cases htot : 0 < totalHits env
      · rw [if_pos htot]
        have hfun : (fun c : Nat => if 0 < totalHits env
              then round2 ((c : ℚ) / (totalHits env : ℚ) * 100) else 0)
            = (fun c : Nat => round2 ((c : ℚ) / (totalHits env : ℚ) * 100)) :=
          funext fun _ => if_pos htot
        rw [hfun]
      · rw [if_neg htot]
        have hfun : (fun c : Nat => if 0 < totalHits env
              then round2 ((c : ℚ) / (totalHits env : ℚ) * 100) else 0)
            = (fun _ : Nat => (0 : ℚ)) :=
          funext fun _ => if_neg htot
        rw [hfun]
  · intro env
    have hpt : (fun t => processResponse t ((env t).map
          (fun ps => ps.filter (fun p => ! isEvName p.name))))
        = (fun t => processResponse t (env t)) := by
      funext t
      cases he : env t with
      | none => rfl
      | some ps => exact processPlacesAux_filter_ev t ps 0
    have hct : (fun t => countResp ((env t).map
          (fun ps => ps.filter (fun p => ! isEvName p.name))))
        = (fun t => countResp (env t)) := by
      funext t
      cases he : env t with
      | none => rfl
      | some ps => exact countHitsAux_filter_ev ps
    simp only [get_nearby_amenities, totalHits]
    rw [hpt, hct]

/-- C3: process_site is total (the aggregator never raises: in the source
every adapter fails soft and one outer handler still returns the record) and
every schema field of the returned record is a function of the query and of
that field's own adapter outcome alone — so no adapter's failure can prevent
any other adapter's result from being merged, and the record always carries
every field, with each merge function yielding its sentinel defaults on the
failure outcome. -/
theorem process_site_adapter_groups (lat lon : ℚ) (fast rapid ultra : Int)
    (fast_kw rapid_kw ultra_kw : ℚ) (cr ar : Int) (o : Outcomes) :
    let r := process_site lat lon fast rapid ultra fast_kw rapid_kw ultra_kw cr ar o
    (r.easting, r.northing) = convert_to_british_grid o.grid
    ∧ r.elevation = get_elevation_data o.elevationResp
    ∧ r.required_kva = calculate_kva fast rapid ultra fast_kw rapid_kw ultra_kw
    ∧ (r.street, r.street_number, r.neighbourhood, r.city, r.county, r.region, r.country,
        r.formatted_address, r.postcode) = geocodeMerge o.geocode
    ∧ (r.ward, r.district, r.admin_county, r.parish, r.parliamentary_constituency, r.ccg,
        r.ced, r.nuts, r.lsoa, r.msoa, r.postcode_region, r.postcode_country)
        = adminMerge o.postcodeResp
    ∧ (r.traffic_speed, r.traffic_freeflow, r.traffic_congestion)
        = ((get_tomtom_traffic o.traffic).speed, (get_tomtom_traffic o.traffic).freeFlow,
           (get_tomtom_traffic o.traffic).congestion)
    ∧ (r.amenities, r.amenities_summary, r.amenities_counts, r.amenities_proportions,
        r.amenities_total)
        = ((get_nearby_amenities o.amenities).summary,
           (get_nearby_amenities o.amenities).summary,
           (get_nearby_amenities o.amenities).counts,
           (get_nearby_amenities o.amenities).proportions,
           (get_nearby_amenities o.amenities).total_found)
    ∧ (r.competitor_ev_count, r.competitor_ev_names, r.ev_stations_details)
        = (o.evStations.length,
           if o.evStations.isEmpty then "None"
           else joinSep ("; ") (o.evStations.map Station.name),
           o.evStations)
    ∧ (r.snapped_road_name, r.snapped_road_type, r.nearest_road_name, r.nearest_road_type,
        r.place_id)
        = (o.road.snapped_road_name, o.road.snapped_road_type, o.road.nearest_road_name,
           o.road.nearest_road_type, o.road.place_id)
    ∧ (r.street_view_image_urls, r.street_view_maps_link, r.has_street_view)
        = ((get_street_view_data lat lon o.hasStreetView).image_urls,
           some (get_street_view_data lat lon o.hasStreetView).maps_link,
           (get_street_view_data lat lon o.hasStreetView).has_street_view)
    ∧ (r.latitude, r.longitude, r.fast_chargers, r.rapid_chargers, r.ultra_chargers,
        r.competitor_radius, r.amenities_radius) = (lat, lon, fast, rapid, ultra, cr, ar)
    ∧ (r.google_maps_link, r.google_maps_dir_link, r.aerial_view_url)
        = (some (google_maps_search_link lat lon), some (google_maps_dir_link lat lon),
           some (get_aerial_view_url lat lon)) :=
  ⟨rfl, rfl, rfl, rfl, rfl, rfl, rfl, rfl, rfl, rfl, rfl, rfl⟩

/-- C8: failing any single adapter changes the aggregated record exactly by
setting that adapter's fields to their failure sentinels; every field owned
by the other adapters (and every query-derived field) is unchanged from the
record produced with the original outcomes — no cross-contamination between
adapters' field groups. -/
theorem process_site_single_failure_frame (lat lon : ℚ) (fast rapid ultra : Int)
    (fast_kw rapid_kw ultra_kw : ℚ) (cr ar : Int) (o : Outcomes) (a : Adapter) :
    process_site lat lon fast rapid ultra fast_kw rapid_kw ultra_kw cr ar (failAt a o)
      = applyFailDefaults a
          (process_site lat lon fast rapid ultra fast_kw rapid_kw ultra_kw cr ar o) := by
  cases a <;> rfl

/-- C9 (counterexample): in one exported record (projection failed, elevation
failed), the unavailable Easting renders as the empty CSV field while the
unavailable Elevation renders as "N/A" — the unavailability sentinel is not
uniformly the string "N/A", contradicting the claim. -/
theorem csv_sentinel_counterexample :
    ((export_row (process_site 51.5074 (-0.1278) 2 2 1 22 60 150 1000 500
        allFailOutcomes)).lookup ("Easting")).map csvCell = some ""
    ∧ ((export_row (process_site 51.5074 (-0.1278) 2 2 1 22 60 150 1000 500
        allFailOutcomes)).lookup ("Elevation (m)")).map csvCell = some "N/A"
    ∧ ("" : String) ≠ "N/A" :=
  ⟨rfl, rfl, by decide⟩

/-- C9 (amended): each exported cell's displayed value is rendered
deterministically from the record, and string-valued cells (including the
"N/A" sentinel) are reproduced verbatim, so re-reading the displayed text
yields the same displayed value; but fields whose unavailable value is
Python None — easting/northing when the projection fails (and likewise the
nullable administrative and link fields) — render as the empty string rather
than "N/A", so the unavailable sentinel is not uniform across fields. -/
theorem export_row_rendering_spec (lat lon : ℚ) (fast rapid ultra : Int)
    (fast_kw rapid_kw ultra_kw : ℚ) (cr ar : Int) (o : Outcomes) :
    (o.grid = none →
      ((export_row (process_site lat lon fast rapid ultra fast_kw rapid_kw ultra_kw
          cr ar o)).lookup ("Easting")).map csvCell = some "")
    ∧ (o.elevationResp = none →
      ((export_row (process_site lat lon fast rapid ultra fast_kw rapid_kw ultra_kw
          cr ar o)).lookup ("Elevation (m)")).map csvCell = some "N/A")
    ∧ (∀ s, csvCell (Cell.str s) = s)
    ∧ csvCell Cell.blank = "" := by
  refine ⟨?_, ?_, fun s => rfl, rfl⟩
  · intro h
    have he : (process_site lat lon fast rapid ultra fast_kw rapid_kw ultra_kw
        cr ar o).easting = none := by
      have hdef : (process_site lat lon fast rapid ultra fast_kw rapid_kw ultra_kw
          cr ar o).easting = (convert_to_british_grid o.grid).1 := rfl
      rw [hdef, h]
      rfl
    simp [export_row, List.lookup, he, csvCell]
  · intro h
    have hel : (process_site lat lon fast rapid ultra fast_kw rapid_kw ultra_kw
        cr ar o).elevation = none := by
      have hdef : (process_site lat lon fast rapid ultra fast_kw rapid_kw ultra_kw
          cr ar o).elevation = get_elevation_data o.elevationResp := rfl
      rw [hdef, h]
      rfl
    simp [export_row, List.lookup, hel, csvCell]

/-- C9 (witness): the amended theorem applied to a concrete record whose
projection and elevation lookups both failed. -/
theorem export_row_rendering_spec_witness :
    ((export_row (process_site 0 0 1 1 1 22 60 150 1000 500
        allFailOutcomes)).lookup ("Easting")).map csvCell = some ""
    ∧ ((export_row (process_site 0 0 1 1 1 22 60 150 1000 500
        allFailOutcomes)).lookup ("Elevation (m)")).map csvCell = some "N/A" :=
  ⟨(export_row_rendering_spec 0 0 1 1 1 22 60 150 1000 500 allFailOutcomes).1 rfl,
   (export_row_rendering_spec 0 0 1 1 1 22 60 150 1000 500 allFailOutcomes).2.1 rfl⟩
